import Mathlib

/-!
Verification of the client-side core of the `terrahacks_healthcare` repository.

Part 1 — Hospital Recommendation Scorer, embedded from
`frontend/app/(tabs)/explore.tsx` (`calculateDistance`, `calculateTravelTime`,
`findRecommendedHospital`).

Part 2 — Authenticated Request Client, embedded from the axios interceptor in
`app/api/apiClient` (shipped inside `app/auth/login.tsx` in this snapshot).

Geographic quantities are modelled over `ℝ` (the idealisation of JavaScript
doubles); times and scores over `ℤ`.  JavaScript `Math.round` rounds half
towards positive infinity, which coincides with Mathlib's `round`
(`round x = ⌊x + 1/2⌋`).
-/

namespace VitaLink

/-- Model of `interface Hospital` from explore.tsx. -/
structure Hospital where
  id : ℤ
  hospital_name : String
  address : String
  phone_number : String
  latitude : ℝ
  longitude : ℝ
  current_wait_time : ℤ

/-- Model of `interface UserLocation` from explore.tsx. -/
structure UserLocation where
  latitude : ℝ
  longitude : ℝ

/-- Model of `interface HospitalWithScore extends Hospital` from explore.tsx. -/
structure HospitalWithScore extends Hospital where
  score : ℤ
  travel_time : ℤ

noncomputable section

/-- JavaScript `Math.atan2 y x`: the angle of the point `(x, y)`,
case split exactly as in the ECMAScript specification. -/
def atan2 (y x : ℝ) : ℝ :=
  if 0 < x then Real.arctan (y / x)
  else if x < 0 ∧ 0 ≤ y then Real.arctan (y / x) + Real.pi
  else if x < 0 ∧ y < 0 then Real.arctan (y / x) - Real.pi
  else if x = 0 ∧ 0 < y then Real.pi / 2
  else if x = 0 ∧ y < 0 then -(Real.pi / 2)
  else 0

/-- Model of `calculateDistance` from explore.tsx: haversine distance in kilometres,
Earth radius 6371 km. -/
def calculateDistance (lat1 lon1 lat2 lon2 : ℝ) : ℝ :=
  let R : ℝ := 6371
  let dLat : ℝ := (lat2 - lat1) * Real.pi / 180
  let dLon : ℝ := (lon2 - lon1) * Real.pi / 180
  let a : ℝ :=
    Real.sin (dLat / 2) * Real.sin (dLat / 2) +
      Real.cos (lat1 * Real.pi / 180) * Real.cos (lat2 * Real.pi / 180) *
        Real.sin (dLon / 2) * Real.sin (dLon / 2)
  let c : ℝ := 2 * atan2 (Real.sqrt a) (Real.sqrt (1 - a))
  R * c

/-- Model of `calculateTravelTime` from explore.tsx: minutes at 40 km/h, rounded
(`Math.round`, i.e. Mathlib `round`). -/
def calculateTravelTime (distanceKm : ℝ) : ℤ :=
  let averageSpeedKmh : ℝ := 40
  round (distanceKm / averageSpeedKmh * 60)

/-- The body of the `hospitalList.map` callback in `findRecommendedHospital`:
annotate one hospital with its travel time and composite score. -/
def scoreHospital (userLoc : UserLocation) (hospital : Hospital) : HospitalWithScore :=
  let distance : ℝ :=
    calculateDistance userLoc.latitude userLoc.longitude hospital.latitude hospital.longitude
  let travel_time : ℤ := calculateTravelTime distance
  let score : ℤ := travel_time + hospital.current_wait_time
  { hospital with score := score, travel_time := travel_time }

end

/-- The order underlying the comparator `(a, b) => a.score - b.score` passed to
`Array.prototype.sort`. -/
def scoreLE (a b : HospitalWithScore) : Prop :=
  a.score ≤ b.score

instance : DecidableRel scoreLE := fun a b =>
  inferInstanceAs (Decidable (a.score ≤ b.score))

instance : IsTotal HospitalWithScore scoreLE :=
  ⟨fun a b => le_total a.score b.score⟩

instance : IsTrans HospitalWithScore scoreLE :=
  ⟨fun _ _ _ hab hbc => le_trans hab hbc⟩

noncomputable section

/-- Model of `hospitalsWithScores` after `hospitalsWithScores.sort((a, b) => a.score - b.score)`
in `findRecommendedHospital`.  `Array.prototype.sort` with this comparator is
required by ECMAScript 2019+ to be the stable sort ascending by `score`, which
is exactly `List.insertionSort scoreLE`. -/
def rankHospitals (userLoc : UserLocation) (hospitalList : List Hospital) :
    List HospitalWithScore :=
  List.insertionSort scoreLE (hospitalList.map (scoreHospital userLoc))

/-- Model of `findRecommendedHospital` from explore.tsx: `null` (here `none`) when the
list is empty, otherwise element `[0]` of the sorted scored list. -/
def findRecommendedHospital (hospitalList : List Hospital) (userLoc : UserLocation) :
    Option HospitalWithScore :=
  if hospitalList.length = 0 then none
  else (rankHospitals userLoc hospitalList).head?

end

/-! ## Part 2 — Authenticated Request Client (axios interceptors in apiClient) -/

/-- Shape of `response.data` of the refresh endpoint: `{ access, refresh }`. -/
structure RespData where
  access : String
  refresh : String
deriving DecidableEq

/-- An HTTP response: status code plus parsed JSON data. -/
structure HttpResponse where
  status : ℕ
  data : RespData
deriving DecidableEq

/-- What the network returns for one HTTP roundtrip: a response, or no
response at all (network failure / timeout — `error.response` undefined). -/
inductive NetResult where
  | response (resp : HttpResponse)
  | netError
deriving DecidableEq

/-- One outgoing HTTP call as the network sees it. -/
structure Call where
  method : String
  url : String
  authorization : Option String
  body : Option String
deriving DecidableEq

/-- The environment: the network's reply to the `n`-th HTTP call issued by
this client (calls are sequential within one `apiClient(config)` run). -/
abbrev World := ℕ → Call → NetResult

/-- The `expo-secure-store` slots used by apiClient:
keys `"accessToken"` and `"refreshToken"`. -/
structure Store where
  accessToken : Option String
  refreshToken : Option String
deriving DecidableEq

/-- An axios request config: method, url, headers.Authorization, body and the
`_retry` flag the response interceptor attaches. -/
structure ReqConfig where
  method : String
  url : String
  authorization : Option String
  body : Option String
  retry : Bool
deriving DecidableEq

/-- Observable events of a run: each HTTP call issued (tagged with whether it
went through `apiClient`, i.e. through the interceptors, or through the bare
`axios` module), and each `SecureStore.setItemAsync` write together with the
store state just after it. -/
inductive Event where
  | httpCall (call : Call) (viaApiClient : Bool)
  | setItem (key value : String) (store : Store)
deriving DecidableEq

/-- How axios settles one roundtrip: fulfilled on a 2xx status, rejected with
`error.response = resp` on any other status, rejected without a response on
network failure. -/
inductive AxiosResult where
  | fulfilled (resp : HttpResponse)
  | rejectedResponse (resp : HttpResponse)
  | networkError
deriving DecidableEq

/-- What the caller of `apiClient(config)` observes: a fulfilled response, or
a rejection carrying `error.response` (none for a network failure). -/
inductive ClientResult where
  | ok (resp : HttpResponse)
  | error (resp : Option HttpResponse)
deriving DecidableEq

/-- Constant `API_BASE_URL` in apiClient. -/
def apiBaseUrl : String := "https://8b285d984713.ngrok-free.app/api/"

/-- The refresh endpoint `${API_BASE_URL}token/refresh/`. -/
def refreshUrl : String := apiBaseUrl ++ "token/refresh/"

/-- Axios's default `validateStatus`: `200 <= status < 300` fulfills. -/
def is2xx (status : ℕ) : Prop := 200 ≤ status ∧ status < 300

instance (status : ℕ) : Decidable (is2xx status) :=
  inferInstanceAs (Decidable (200 ≤ status ∧ status < 300))

/-- The call a config gives rise to on the wire. -/
def toCall (cfg : ReqConfig) : Call :=
  ⟨cfg.method, cfg.url, cfg.authorization, cfg.body⟩

/-- The request interceptor: read `accessToken` from SecureStore and, if
present, set `Authorization: Bearer <token>`. -/
def applyRequestInterceptor (store : Store) (cfg : ReqConfig) : ReqConfig :=
  match store.accessToken with
  | some accessToken => { cfg with authorization := some ("Bearer " ++ accessToken) }
  | none => cfg

/-- One HTTP roundtrip: record the call in the event trace, ask the world for
the reply, settle it as axios does. -/
def dispatch (world : World) (cnt : ℕ) (events : List Event) (call : Call)
    (viaApiClient : Bool) : AxiosResult × ℕ × List Event :=
  let events := events ++ [Event.httpCall call viaApiClient]
  match world cnt call with
  | NetResult.response resp =>
      (if is2xx resp.status then AxiosResult.fulfilled resp
       else AxiosResult.rejectedResponse resp, cnt + 1, events)
  | NetResult.netError => (AxiosResult.networkError, cnt + 1, events)

/-- The result of one `apiClient(config)` run: the settled promise, the final
SecureStore state, the number of HTTP calls issued, the event trace. -/
structure RunOutcome where
  result : ClientResult
  store : Store
  cnt : ℕ
  events : List Event
deriving DecidableEq

/-- Model of `apiClient(config)`: request interceptor, the HTTP roundtrip, then the
response interceptor from apiClient.  On a 401 with `_retry` unset it sets
`_retry`, reads the refresh token (absent → reject with the original error),
posts to the refresh endpoint through the bare `axios` module (no
interceptors, no Authorization header), on success writes `accessToken` then
`refreshToken` to SecureStore, reattaches the new access token and re-enters
`apiClient(originalRequest)`; if the refresh call fails it rejects with that
failure.  Any other error is rejected unchanged. -/
def apiClientRequest (world : World) (store : Store) (cnt : ℕ) (events : List Event)
    (cfg : ReqConfig) : RunOutcome :=
  let cfg1 := applyRequestInterceptor store cfg
  match dispatch world cnt events (toCall cfg1) true with
  | (AxiosResult.fulfilled resp, cnt1, events1) => ⟨ClientResult.ok resp, store, cnt1, events1⟩
  | (AxiosResult.networkError, cnt1, events1) => ⟨ClientResult.error none, store, cnt1, events1⟩
  | (AxiosResult.rejectedResponse resp, cnt1, events1) =>
    if h : resp.status = 401 ∧ cfg.retry = false then
      let originalRequest := { cfg with retry := true }
      match store.refreshToken with
      | none => ⟨ClientResult.error (some resp), store, cnt1, events1⟩
      | some refreshToken =>
        match dispatch world cnt1 events1 ⟨"POST", refreshUrl, none, some refreshToken⟩ false with
        | (AxiosResult.fulfilled refreshResp, cnt2, events2) =>
          let store1 : Store := { store with accessToken := some refreshResp.data.access }
          let events3 := events2 ++ [Event.setItem "accessToken" refreshResp.data.access store1]
          let store2 : Store := { store1 with refreshToken := some refreshResp.data.refresh }
          let events4 := events3 ++ [Event.setItem "refreshToken" refreshResp.data.refresh store2]
          let retried : ReqConfig :=
            { originalRequest with authorization := some ("Bearer " ++ refreshResp.data.access) }
          apiClientRequest world store2 cnt2 events4 retried
        | (AxiosResult.rejectedResponse refreshResp, cnt2, events2) =>
          ⟨ClientResult.error (some refreshResp), store, cnt2, events2⟩
        | (AxiosResult.networkError, cnt2, events2) =>
          ⟨ClientResult.error none, store, cnt2, events2⟩
    else
      ⟨ClientResult.error (some resp), store, cnt1, events1⟩
termination_by cond cfg.retry 0 1
decreasing_by simp_all

/-- A fresh `apiClient(config)` run: no calls issued yet, empty trace. -/
def runApiRequest (world : World) (store : Store) (cfg : ReqConfig) : RunOutcome :=
  apiClientRequest world store 0 [] cfg

/-- Event predicate: an HTTP call to the given url with the given method. -/
def isCallTo (url method : String) (e : Event) : Bool :=
  match e with
  | Event.httpCall call _ => decide (call.url = url ∧ call.method = method)
  | _ => false

/-- Event predicate: an HTTP call to the token-refresh endpoint. -/
def isRefreshCall (e : Event) : Bool :=
  match e with
  | Event.httpCall call _ => decide (call.url = refreshUrl)
  | _ => false

/-! ## Concrete sample data (used to instantiate the theorems) -/

/-- A sample hospital. -/
def demoHospital : Hospital :=
  { id := 1, hospital_name := "General", address := "1 Main St",
    phone_number := "555-0100", latitude := 0, longitude := 0,
    current_wait_time := 5 }

/-- A second sample hospital with a larger wait time. -/
def demoHospital2 : Hospital :=
  { id := 2, hospital_name := "Central", address := "2 Main St",
    phone_number := "555-0200", latitude := 0, longitude := 0,
    current_wait_time := 30 }

/-- A sample user location. -/
def demoUserLoc : UserLocation := { latitude := 0, longitude := 0 }

/-- A sample authenticated GET request config. -/
def demoCfg : ReqConfig :=
  { method := "GET", url := "profile/", authorization := none,
    body := none, retry := false }

/-- A sample credential store holding both tokens. -/
def demoStore : Store :=
  { accessToken := some "oldA", refreshToken := some "oldR" }

/-- A sample credential store with no refresh token. -/
def demoStoreNoRefresh : Store :=
  { accessToken := some "oldA", refreshToken := none }

/-- A 401 response. -/
def resp401 : HttpResponse := ⟨401, ⟨"", ""⟩⟩

/-- A successful refresh response carrying fresh tokens. -/
def respNewTokens : HttpResponse := ⟨200, ⟨"newA", "newR"⟩⟩

/-- A plain 200 response. -/
def respOk : HttpResponse := ⟨200, ⟨"", ""⟩⟩

/-- World for the refresh-then-retry scenario: first call 401, second call
(the refresh) succeeds with fresh tokens, third call succeeds. -/
def worldRefreshOk : World := fun n _ =>
  if n = 0 then NetResult.response resp401
  else if n = 1 then NetResult.response respNewTokens
  else NetResult.response respOk

/-- World where the retried request is rejected with 401 again. -/
def worldTwice401 : World := fun n _ =>
  if n = 0 then NetResult.response resp401
  else if n = 1 then NetResult.response respNewTokens
  else NetResult.response resp401

/-- World answering 401 to everything. -/
def worldAlways401 : World := fun _ _ => NetResult.response resp401

/-! ## Helper lemmas -/

/-- Head of the stable sort: it is the first element of the input achieving
the minimum score (stable tie-break). -/
theorem insertionSort_head_first_min :
    ∀ L : List HospitalWithScore, L ≠ [] →
      ∃ b l1 l2, (List.insertionSort scoreLE L).head? = some b ∧ L = l1 ++ b :: l2 ∧
        (∀ x ∈ L, b.score ≤ x.score) ∧ (∀ x ∈ l1, b.score < x.score) := by
  intro L
  induction L with
  | nil => intro h; exact absurd rfl h
  | cons a L ih =>
    intro _
    cases L with
    | nil =>
      refine ⟨a, [], [], rfl, rfl, ?_, ?_⟩
      · intro x hx; simp at hx; simp [hx]
      · intro x hx; simp at hx
    | cons a2 L' =>
      obtain ⟨b, l1, l2, hh, hsplit, hmin, hfirst⟩ := ih (by simp)
      obtain ⟨t, hs⟩ : ∃ t, List.insertionSort scoreLE (a2 :: L') = b :: t := by
        cases hq : List.insertionSort scoreLE (a2 :: L') with
        | nil => rw [hq] at hh; exact absurd hh (by simp)
        | cons c t =>
          rw [hq] at hh
          simp only [List.head?_cons, Option.some.injEq] at hh
          exact ⟨t, by rw [hh]⟩
      by_cases hab : a.score ≤ b.score
      · refine ⟨a, [], a2 :: L', ?_, rfl, ?_, ?_⟩
        · show (List.orderedInsert scoreLE a (List.insertionSort scoreLE (a2 :: L'))).head? = some a
          rw [hs, List.orderedInsert_of_le scoreLE t hab]
          rfl
        · intro x hx
          rcases List.mem_cons.mp hx with h | h
          · exact h ▸ le_refl _
          · exact le_trans hab (hmin x h)
        · intro x hx; simp at hx
      · refine ⟨b, a :: l1, l2, ?_, ?_, ?_, ?_⟩
        · show (List.orderedInsert scoreLE a (List.insertionSort scoreLE (a2 :: L'))).head? = some b
          rw [hs]
          show (if scoreLE a b then a :: b :: t else b :: List.orderedInsert scoreLE a t).head? =
            some b
          have hab' : ¬ scoreLE a b := hab
          rw [if_neg hab']
          rfl
        · simp [hsplit]
        · intro x hx
          rcases List.mem_cons.mp hx with h | h
          · exact h ▸ le_of_lt (lt_of_not_le hab)
          · exact hmin x h
        · intro x hx
          rcases List.mem_cons.mp hx with h | h
          · exact h ▸ lt_of_not_le hab
          · exact hfirst x h

/-- The request interceptor never changes the url. -/
theorem applyRequestInterceptor_url (store : Store) (cfg : ReqConfig) :
    (applyRequestInterceptor store cfg).url = cfg.url := by
  cases hsa : store.accessToken <;> simp [applyRequestInterceptor, hsa]

/-- The request interceptor never changes the method. -/
theorem applyRequestInterceptor_method (store : Store) (cfg : ReqConfig) :
    (applyRequestInterceptor store cfg).method = cfg.method := by
  cases hsa : store.accessToken <;> simp [applyRequestInterceptor, hsa]

/-- Computation rule for the request interceptor on a store with a token. -/
theorem applyRequestInterceptor_mk_some (a : String) (r : Option String) (cfg : ReqConfig) :
    applyRequestInterceptor ⟨some a, r⟩ cfg =
      { cfg with authorization := some ("Bearer " ++ a) } := rfl

/-- Full characterisation of a run in the 401-then-successful-refresh
scenario: the three concrete HTTP calls, the two SecureStore writes, the
final store and the settled result. -/
theorem run_refresh_outcome
    (world : World) (store : Store) (cfg : ReqConfig) (rt : String)
    (resp1 refreshResp resp3 : HttpResponse)
    (hretry : cfg.retry = false)
    (hrt : store.refreshToken = some rt)
    (h1 : world 0 (toCall (applyRequestInterceptor store cfg)) = NetResult.response resp1)
    (hs1 : resp1.status = 401)
    (h2 : world 1 ⟨"POST", refreshUrl, none, some rt⟩ = NetResult.response refreshResp)
    (hs2 : is2xx refreshResp.status)
    (h3 : world 2 ⟨cfg.method, cfg.url, some ("Bearer " ++ refreshResp.data.access), cfg.body⟩ =
      NetResult.response resp3) :
    runApiRequest world store cfg =
      ⟨if is2xx resp3.status then ClientResult.ok resp3 else ClientResult.error (some resp3),
       ⟨some refreshResp.data.access, some refreshResp.data.refresh⟩, 3,
       [Event.httpCall (toCall (applyRequestInterceptor store cfg)) true,
        Event.httpCall ⟨"POST", refreshUrl, none, some rt⟩ false,
        Event.setItem "accessToken" refreshResp.data.access
          ⟨some refreshResp.data.access, some rt⟩,
        Event.setItem "refreshToken" refreshResp.data.refresh
          ⟨some refreshResp.data.access, some refreshResp.data.refresh⟩,
        Event.httpCall ⟨cfg.method, cfg.url, some ("Bearer " ++ refreshResp.data.access), cfg.body⟩
          true]⟩ := by
  have h401 : ¬ is2xx resp1.status := by rw [hs1]; decide
  have hcond : resp1.status = 401 ∧ cfg.retry = false := ⟨hs1, hretry⟩
  cases hsa : store.accessToken
  all_goals
    simp only [applyRequestInterceptor, hsa, toCall] at h1 ⊢
    simp only [runApiRequest]
    rw [apiClientRequest.eq_def]
    simp only [dispatch, applyRequestInterceptor, hsa, toCall]
    rw [h1]
    simp only [if_neg h401, dif_pos hcond, hrt]
    rw [h2]
    simp only [if_pos hs2]
    rw [apiClientRequest.eq_def]
    simp only [dispatch, applyRequestInterceptor, toCall]
    rw [h3]
    by_cases hc : is2xx resp3.status
    · simp [if_pos hc, hrt]
    · simp [if_neg hc, hrt]

/-! ## Claims -/

/-- C1: on a non-empty hospital list, `findRecommendedHospital` returns a
scored hospital with the globally minimum composite score (no element of the
scored input has a strictly smaller score), and it is the first element of
the input order achieving that minimum (stable tie-break): every scored
hospital strictly before it in input order has a strictly larger score. -/
theorem findRecommendedHospital_min_score_stable
    (hospitalList : List Hospital) (userLoc : UserLocation)
    (h : hospitalList ≠ []) :
    ∃ b l1 l2,
      findRecommendedHospital hospitalList userLoc = some b ∧
      hospitalList.map (scoreHospital userLoc) = l1 ++ b :: l2 ∧
      (∀ x ∈ hospitalList.map (scoreHospital userLoc), b.score ≤ x.score) ∧
      (∀ x ∈ l1, b.score < x.score) := by
  obtain ⟨b, l1, l2, hh, hsplit, hmin, hfirst⟩ :=
    insertionSort_head_first_min (hospitalList.map (scoreHospital userLoc)) (by simp [h])
  refine ⟨b, l1, l2, ?_, hsplit, hmin, hfirst⟩
  simp only [findRecommendedHospital, rankHospitals]
  rw [if_neg (by simpa using h)]
  exact hh

/-- Witness for C1 at a concrete two-hospital list. -/
theorem findRecommendedHospital_min_score_stable_witness :
    ∃ b l1 l2,
      findRecommendedHospital [demoHospital, demoHospital2] demoUserLoc = some b ∧
      [demoHospital, demoHospital2].map (scoreHospital demoUserLoc) = l1 ++ b :: l2 ∧
      (∀ x ∈ [demoHospital, demoHospital2].map (scoreHospital demoUserLoc), b.score ≤ x.score) ∧
      (∀ x ∈ l1, b.score < x.score) :=
  findRecommendedHospital_min_score_stable [demoHospital, demoHospital2] demoUserLoc (by simp)

/-- C2: on a non-empty list the ranking (the scored, sorted collection built
inside `findRecommendedHospital`) has the same length as the input, is sorted
ascending by score, and each element's score is
`calculateTravelTime (calculateDistance user h) + h.current_wait_time`, with
its annotated travel time equal to `calculateTravelTime` of that distance. -/
theorem rankHospitals_length_sorted_formula
    (hospitalList : List Hospital) (userLoc : UserLocation)
    (h : hospitalList ≠ []) :
    (rankHospitals userLoc hospitalList).length = hospitalList.length ∧
    List.Sorted scoreLE (rankHospitals userLoc hospitalList) ∧
    ∀ x ∈ rankHospitals userLoc hospitalList,
      x.travel_time =
        calculateTravelTime
          (calculateDistance userLoc.latitude userLoc.longitude x.latitude x.longitude) ∧
      x.score =
        calculateTravelTime
          (calculateDistance userLoc.latitude userLoc.longitude x.latitude x.longitude) +
          x.current_wait_time := by
  refine ⟨?_, ?_, ?_⟩
  · simp only [rankHospitals]
    rw [(List.perm_insertionSort scoreLE _).length_eq, List.length_map]
  · exact List.sorted_insertionSort scoreLE _
  · intro x hx
    have hx' : x ∈ hospitalList.map (scoreHospital userLoc) :=
      (List.perm_insertionSort scoreLE _).mem_iff.mp hx
    obtain ⟨h0, _, rfl⟩ := List.mem_map.mp hx'
    exact ⟨rfl, rfl⟩

/-- Witness for C2 at a concrete two-hospital list. -/
theorem rankHospitals_length_sorted_formula_witness :
    (rankHospitals demoUserLoc [demoHospital, demoHospital2]).length =
      ([demoHospital, demoHospital2] : List Hospital).length ∧
    List.Sorted scoreLE (rankHospitals demoUserLoc [demoHospital, demoHospital2]) ∧
    ∀ x ∈ rankHospitals demoUserLoc [demoHospital, demoHospital2],
      x.travel_time =
        calculateTravelTime
          (calculateDistance demoUserLoc.latitude demoUserLoc.longitude x.latitude x.longitude) ∧
      x.score =
        calculateTravelTime
          (calculateDistance demoUserLoc.latitude demoUserLoc.longitude x.latitude x.longitude) +
          x.current_wait_time :=
  rankHospitals_length_sorted_formula [demoHospital, demoHospital2] demoUserLoc (by simp)

/-- C3 counterexample: on the empty hospital list the code does not fail with
a distinct `EmptyInput` error — it returns the sentinel `null` (`none`), as
its `HospitalWithScore | null` return type shows. -/
theorem findRecommendedHospital_empty_returns_null :
    findRecommendedHospital [] demoUserLoc = none := by
  simp [findRecommendedHospital]

/-- C3 amended: on the empty hospital list `findRecommendedHospital` returns
`null` (`none`) — a sentinel the caller must check — rather than raising a
distinct `EmptyInput` error. -/
theorem findRecommendedHospital_empty_none (userLoc : UserLocation) :
    findRecommendedHospital [] userLoc = none := by
  simp [findRecommendedHospital]

/-- C4: when the first send is rejected with 401, a refresh token is stored,
and the refresh call succeeds, the run issues exactly two HTTP calls to the
original url/method and exactly one call to the refresh endpoint, and the
value returned to the caller is the settlement of the retried call's
response. -/
theorem refresh_retry_two_calls_one_refresh
    (world : World) (store : Store) (cfg : ReqConfig) (rt : String)
    (resp1 refreshResp resp3 : HttpResponse)
    (hretry : cfg.retry = false)
    (hne : cfg.url ≠ refreshUrl)
    (hrt : store.refreshToken = some rt)
    (h1 : world 0 (toCall (applyRequestInterceptor store cfg)) = NetResult.response resp1)
    (hs1 : resp1.status = 401)
    (h2 : world 1 ⟨"POST", refreshUrl, none, some rt⟩ = NetResult.response refreshResp)
    (hs2 : is2xx refreshResp.status)
    (h3 : world 2 ⟨cfg.method, cfg.url, some ("Bearer " ++ refreshResp.data.access), cfg.body⟩ =
      NetResult.response resp3) :
    (runApiRequest world store cfg).events.countP (isCallTo cfg.url cfg.method) = 2 ∧
    (runApiRequest world store cfg).events.countP isRefreshCall = 1 ∧
    (runApiRequest world store cfg).result =
      (if is2xx resp3.status then ClientResult.ok resp3 else ClientResult.error (some resp3)) := by
  have hne' : refreshUrl ≠ cfg.url := Ne.symm hne
  rw [run_refresh_outcome world store cfg rt resp1 refreshResp resp3 hretry hrt h1 hs1 h2 hs2 h3]
  refine ⟨?_, ?_, rfl⟩ <;>
    simp [List.countP_cons, isCallTo, isRefreshCall, toCall,
      applyRequestInterceptor_url, applyRequestInterceptor_method, hne, hne']

/-- Witness for C4 at a concrete world, store and request. -/
theorem refresh_retry_two_calls_one_refresh_witness :
    (runApiRequest worldRefreshOk demoStore demoCfg).events.countP
        (isCallTo demoCfg.url demoCfg.method) = 2 ∧
    (runApiRequest worldRefreshOk demoStore demoCfg).events.countP isRefreshCall = 1 ∧
    (runApiRequest worldRefreshOk demoStore demoCfg).result = ClientResult.ok respOk := by
  have h := refresh_retry_two_calls_one_refresh worldRefreshOk demoStore demoCfg "oldR"
    resp401 respNewTokens respOk rfl (by decide) rfl rfl rfl rfl (by decide) rfl
  rwa [if_pos (show is2xx respOk.status by decide)] at h

/-- C5: when the retried request is rejected with 401 again after a
successful refresh, the run fails (the promise is rejected with that second
401 error) and exactly one refresh call was made — no second refresh. -/
theorem second_401_no_second_refresh
    (world : World) (store : Store) (cfg : ReqConfig) (rt : String)
    (resp1 refreshResp resp3 : HttpResponse)
    (hretry : cfg.retry = false)
    (hne : cfg.url ≠ refreshUrl)
    (hrt : store.refreshToken = some rt)
    (h1 : world 0 (toCall (applyRequestInterceptor store cfg)) = NetResult.response resp1)
    (hs1 : resp1.status = 401)
    (h2 : world 1 ⟨"POST", refreshUrl, none, some rt⟩ = NetResult.response refreshResp)
    (hs2 : is2xx refreshResp.status)
    (h3 : world 2 ⟨cfg.method, cfg.url, some ("Bearer " ++ refreshResp.data.access), cfg.body⟩ =
      NetResult.response resp3)
    (hs3 : resp3.status = 401) :
    (runApiRequest world store cfg).result = ClientResult.error (some resp3) ∧
    (runApiRequest world store cfg).events.countP isRefreshCall = 1 := by
  have hne' : refreshUrl ≠ cfg.url := Ne.symm hne
  have hn3 : ¬ is2xx resp3.status := by rw [hs3]; decide
  rw [run_refresh_outcome world store cfg rt resp1 refreshResp resp3 hretry hrt h1 hs1 h2 hs2 h3]
  refine ⟨by simp [if_neg hn3], ?_⟩
  simp [List.countP_cons, isRefreshCall, toCall, applyRequestInterceptor_url, hne, hne']

/-- Witness for C5 at a concrete world, store and request. -/
theorem second_401_no_second_refresh_witness :
    (runApiRequest worldTwice401 demoStore demoCfg).result = ClientResult.error (some resp401) ∧
    (runApiRequest worldTwice401 demoStore demoCfg).events.countP isRefreshCall = 1 :=
  second_401_no_second_refresh worldTwice401 demoStore demoCfg "oldR" resp401 respNewTokens
    resp401 rfl (by decide) rfl rfl rfl rfl (by decide) rfl rfl

/-- C6: a 401 with no stored refresh token is rejected immediately with the
original 401 error; the trace holds only the single original call — zero
refresh-endpoint calls, no retry. -/
theorem missing_refresh_token_rejects_immediately
    (world : World) (store : Store) (cfg : ReqConfig) (resp1 : HttpResponse)
    (hretry : cfg.retry = false)
    (hne : cfg.url ≠ refreshUrl)
    (hrt : store.refreshToken = none)
    (h1 : world 0 (toCall (applyRequestInterceptor store cfg)) = NetResult.response resp1)
    (hs1 : resp1.status = 401) :
    (runApiRequest world store cfg).result = ClientResult.error (some resp1) ∧
    (runApiRequest world store cfg).events =
      [Event.httpCall (toCall (applyRequestInterceptor store cfg)) true] ∧
    (runApiRequest world store cfg).events.countP isRefreshCall = 0 := by
  have h401 : ¬ is2xx resp1.status := by rw [hs1]; decide
  have hcond : resp1.status = 401 ∧ cfg.retry = false := ⟨hs1, hretry⟩
  have key : runApiRequest world store cfg =
      ⟨ClientResult.error (some resp1), store, 1,
       [Event.httpCall (toCall (applyRequestInterceptor store cfg)) true]⟩ := by
    simp only [runApiRequest]
    rw [apiClientRequest.eq_def]
    simp only [dispatch]
    rw [h1]
    simp only [if_neg h401, dif_pos hcond, hrt]
    rfl
  rw [key]
  refine ⟨rfl, rfl, ?_⟩
  simp [isRefreshCall, toCall, applyRequestInterceptor_url, hne]

/-- Witness for C6 at a concrete world, store and request. -/
theorem missing_refresh_token_rejects_immediately_witness :
    (runApiRequest worldAlways401 demoStoreNoRefresh demoCfg).result =
      ClientResult.error (some resp401) ∧
    (runApiRequest worldAlways401 demoStoreNoRefresh demoCfg).events =
      [Event.httpCall (toCall (applyRequestInterceptor demoStoreNoRefresh demoCfg)) true] ∧
    (runApiRequest worldAlways401 demoStoreNoRefresh demoCfg).events.countP isRefreshCall = 0 :=
  missing_refresh_token_rejects_immediately worldAlways401 demoStoreNoRefresh demoCfg resp401
    rfl (by decide) rfl rfl rfl

/-- C7 counterexample: the token pair is not updated atomically — in a
concrete successful-refresh run the event trace contains the state written by
the first `setItemAsync` alone, in which the new access token is paired with
the old refresh token (exactly the half-updated pair the claim rules out). -/
theorem token_write_half_updated_pair_observable :
    Event.setItem "accessToken" "newA" ⟨some "newA", some "oldR"⟩ ∈
      (runApiRequest worldRefreshOk demoStore demoCfg).events := by
  have key := run_refresh_outcome worldRefreshOk demoStore demoCfg "oldR" resp401 respNewTokens
    respOk rfl rfl rfl rfl rfl (by decide) rfl
  rw [key]
  simp [respNewTokens]

/-- C7 amended: on successful refresh both tokens are overwritten before the
original request is retried, but by two separate sequential writes (access
token first, then refresh token); between the two writes the store holds the
new access token paired with the old refresh token, so the update is
sequential, not atomic both-or-neither. -/
theorem tokens_two_writes_before_retry
    (world : World) (store : Store) (cfg : ReqConfig) (rt : String)
    (resp1 refreshResp : HttpResponse)
    (hretry : cfg.retry = false)
    (hrt : store.refreshToken = some rt)
    (h1 : world 0 (toCall (applyRequestInterceptor store cfg)) = NetResult.response resp1)
    (hs1 : resp1.status = 401)
    (h2 : world 1 ⟨"POST", refreshUrl, none, some rt⟩ = NetResult.response refreshResp)
    (hs2 : is2xx refreshResp.status) :
    (runApiRequest world store cfg).events =
      [Event.httpCall (toCall (applyRequestInterceptor store cfg)) true,
       Event.httpCall ⟨"POST", refreshUrl, none, some rt⟩ false,
       Event.setItem "accessToken" refreshResp.data.access
         ⟨some refreshResp.data.access, some rt⟩,
       Event.setItem "refreshToken" refreshResp.data.refresh
         ⟨some refreshResp.data.access, some refreshResp.data.refresh⟩,
       Event.httpCall ⟨cfg.method, cfg.url, some ("Bearer " ++ refreshResp.data.access), cfg.body⟩
         true] := by
  have h401 : ¬ is2xx resp1.status := by rw [hs1]; decide
  have hcond : resp1.status = 401 ∧ cfg.retry = false := ⟨hs1, hretry⟩
  cases hsa : store.accessToken
  all_goals
    simp only [applyRequestInterceptor, hsa, toCall] at h1 ⊢
    simp only [runApiRequest]
    rw [apiClientRequest.eq_def]
    simp only [dispatch, applyRequestInterceptor, hsa, toCall]
    rw [h1]
    simp only [if_neg h401, dif_pos hcond, hrt]
    rw [h2]
    simp only [if_pos hs2]
    rw [apiClientRequest.eq_def]
    simp only [dispatch, applyRequestInterceptor, toCall]
    cases h3 : world 2 ⟨cfg.method, cfg.url, some ("Bearer " ++ refreshResp.data.access), cfg.body⟩
    case response r3 =>
      by_cases hc : is2xx r3.status
      · simp [if_pos hc, hrt]
      · simp [if_neg hc, hrt]
    case netError => simp [hrt]

/-- Witness for the amended C7 at a concrete world, store and request. -/
theorem tokens_two_writes_before_retry_witness :
    (runApiRequest worldRefreshOk demoStore demoCfg).events =
      [Event.httpCall (toCall (applyRequestInterceptor demoStore demoCfg)) true,
       Event.httpCall ⟨"POST", refreshUrl, none, some "oldR"⟩ false,
       Event.setItem "accessToken" respNewTokens.data.access
         ⟨some respNewTokens.data.access, some "oldR"⟩,
       Event.setItem "refreshToken" respNewTokens.data.refresh
         ⟨some respNewTokens.data.access, some respNewTokens.data.refresh⟩,
       Event.httpCall
         ⟨demoCfg.method, demoCfg.url, some ("Bearer " ++ respNewTokens.data.access), demoCfg.body⟩
         true] :=
  tokens_two_writes_before_retry worldRefreshOk demoStore demoCfg "oldR" resp401 respNewTokens
    rfl rfl rfl rfl rfl (by decide)

/-- C8: `calculateTravelTime` is `Math.round` (floor of the value plus one
half) of the distance divided by 40 km/h and converted to minutes, and it is
monotone on non-negative distances. -/
theorem calculateTravelTime_formula_monotone :
    (∀ d : ℝ, calculateTravelTime d = ⌊d / 40 * 60 + 1 / 2⌋) ∧
    (∀ d1 d2 : ℝ, 0 ≤ d1 → d1 < d2 → calculateTravelTime d1 ≤ calculateTravelTime d2) := by
  constructor
  · intro d
    simp only [calculateTravelTime]
    exact round_eq _
  · intro d1 d2 h0 hlt
    simp only [calculateTravelTime]
    rw [round_eq, round_eq]
    apply Int.floor_mono
    linarith

/-- Witness for the monotonicity half of C8 at distances 0 and 1. -/
theorem calculateTravelTime_formula_monotone_witness :
    (0 : ℝ) ≤ 0 ∧ (0 : ℝ) < 1 ∧ calculateTravelTime 0 ≤ calculateTravelTime 1 :=
  ⟨le_refl 0, by norm_num,
    calculateTravelTime_formula_monotone.2 0 1 (le_refl 0) (by norm_num)⟩

/-- C9: `calculateDistance` (haversine, Earth radius 6371 km) is symmetric in
its two coordinates and zero on identical coordinates. -/
theorem calculateDistance_symmetric_and_zero :
    (∀ lat1 lon1 lat2 lon2 : ℝ,
      calculateDistance lat1 lon1 lat2 lon2 = calculateDistance lat2 lon2 lat1 lon1) ∧
    (∀ lat lon : ℝ, calculateDistance lat lon lat lon = 0) := by
  constructor
  · intro lat1 lon1 lat2 lon2
    have flip : ∀ p q : ℝ,
        Real.sin ((p - q) * Real.pi / 180 / 2) = -Real.sin ((q - p) * Real.pi / 180 / 2) := by
      intro p q
      have h : (p - q) * Real.pi / 180 / 2 = -((q - p) * Real.pi / 180 / 2) := by ring
      rw [h, Real.sin_neg]
    have eqa :
        Real.sin ((lat2 - lat1) * Real.pi / 180 / 2) * Real.sin ((lat2 - lat1) * Real.pi / 180 / 2) +
          Real.cos (lat1 * Real.pi / 180) * Real.cos (lat2 * Real.pi / 180) *
            Real.sin ((lon2 - lon1) * Real.pi / 180 / 2) *
            Real.sin ((lon2 - lon1) * Real.pi / 180 / 2) =
        Real.sin ((lat1 - lat2) * Real.pi / 180 / 2) * Real.sin ((lat1 - lat2) * Real.pi / 180 / 2) +
          Real.cos (lat2 * Real.pi / 180) * Real.cos (lat1 * Real.pi / 180) *
            Real.sin ((lon1 - lon2) * Real.pi / 180 / 2) *
            Real.sin ((lon1 - lon2) * Real.pi / 180 / 2) := by
      rw [flip lat2 lat1, flip lon2 lon1]
      ring
    simp only [calculateDistance]
    rw [eqa]
  · intro lat lon
    simp [calculateDistance, atan2, Real.sqrt_one]

/-- C10: in any run started with an un-retried request whose url is not the
refresh endpoint, the trace contains at most one call to the refresh
endpoint, and if one occurs it is issued through the bare `axios` module
(`viaApiClient = false`, so no interceptors and no nested refresh) with no
Authorization header, carrying only the stored refresh token. -/
theorem refresh_call_bare_unauthenticated_at_most_once
    (world : World) (store : Store) (cfg : ReqConfig)
    (hretry : cfg.retry = false)
    (hne : cfg.url ≠ refreshUrl) :
    (runApiRequest world store cfg).events.filter isRefreshCall = [] ∨
    ∃ rt, store.refreshToken = some rt ∧
      (runApiRequest world store cfg).events.filter isRefreshCall =
        [Event.httpCall ⟨"POST", refreshUrl, none, some rt⟩ false] := by
  simp only [runApiRequest]
  rw [apiClientRequest.eq_def]
  simp only [dispatch]
  cases h1 : world 0 (toCall (applyRequestInterceptor store cfg)) with
  | netError =>
    left
    simp [isRefreshCall, toCall, applyRequestInterceptor_url, hne]
  | response r1 =>
    by_cases hb1 : is2xx r1.status
    · left
      simp [if_pos hb1, isRefreshCall, toCall, applyRequestInterceptor_url, hne]
    · by_cases h401 : r1.status = 401
      · have hcond : r1.status = 401 ∧ cfg.retry = false := ⟨h401, hretry⟩
        simp only [if_neg hb1, dif_pos hcond]
        cases hrt : store.refreshToken with
        | none =>
          left
          simp [isRefreshCall, toCall, applyRequestInterceptor_url, hne]
        | some rt =>
          simp only [dispatch]
          cases h2 : world 1 ⟨"POST", refreshUrl, none, some rt⟩ with
          | netError =>
            right
            refine ⟨rt, rfl, ?_⟩
            simp [isRefreshCall, toCall, applyRequestInterceptor_url, hne, List.filter_cons,
              List.filter_nil]
          | response r2 =>
            by_cases hb2 : is2xx r2.status
            · simp only [if_pos hb2]
              rw [apiClientRequest.eq_def]
              simp only [dispatch, applyRequestInterceptor_mk_some, toCall]
              cases h3 : world 2 ⟨cfg.method, cfg.url, some ("Bearer " ++ r2.data.access),
                  cfg.body⟩ with
              | netError =>
                right
                refine ⟨rt, rfl, ?_⟩
                simp [isRefreshCall, toCall, applyRequestInterceptor_url, hne, List.filter_cons,
                  List.filter_nil]
              | response r3 =>
                by_cases hb3 : is2xx r3.status
                · right
                  refine ⟨rt, rfl, ?_⟩
                  simp [if_pos hb3, isRefreshCall, toCall, applyRequestInterceptor_url, hne,
                    List.filter_cons, List.filter_nil]
                · right
                  refine ⟨rt, rfl, ?_⟩
                  simp [if_neg hb3, isRefreshCall, toCall, applyRequestInterceptor_url, hne,
                    List.filter_cons, List.filter_nil]
            · right
              refine ⟨rt, rfl, ?_⟩
              simp [if_neg hb2, isRefreshCall, toCall, applyRequestInterceptor_url, hne,
                List.filter_cons, List.filter_nil]
      · have hcond : ¬ (r1.status = 401 ∧ cfg.retry = false) := fun hc => h401 hc.1
        left
        simp [if_neg hb1, dif_neg hcond, isRefreshCall, toCall, applyRequestInterceptor_url, hne]

/-- Witness for C10 at a concrete world, store and request. -/
theorem refresh_call_bare_unauthenticated_at_most_once_witness :
    (runApiRequest worldRefreshOk demoStore demoCfg).events.filter isRefreshCall = [] ∨
    ∃ rt, demoStore.refreshToken = some rt ∧
      (runApiRequest worldRefreshOk demoStore demoCfg).events.filter isRefreshCall =
        [Event.httpCall ⟨"POST", refreshUrl, none, some rt⟩ false] :=
  refresh_call_bare_unauthenticated_at_most_once worldRefreshOk demoStore demoCfg rfl (by decide)

end VitaLink
